import Mathlib

/- Shallow embedding of the bulk-import pipeline of the tvbingefriend-show-service
repository: services/retry_service.py, services/monitoring_service.py and
services/show_service.py.  External collaborators (queue storage, table storage,
the TVMaze client, the database repository) are modelled as oracles passed in as
arguments; each service call is translated to a pure function that returns the
list of observable effects it performs together with its outcome, where an
outcome of .error models a Python exception escaping the call. -/

namespace ShowSvc

/-- Queue-name constant. Modelled from the spec: the services import INDEX_QUEUE
from config, but config.py only defines the queue-name setting
SHOWS_INDEX_QUEUE with default "index-queue"; the page-index queue name is
modelled as that default. -/
def INDEX_QUEUE : String := "index-queue"

/-- Queue-name constant. Modelled from the spec: the services import
DETAILS_QUEUE from config, but config.py only defines the queue-name setting
SHOW_DETAILS_QUEUE with default "details-queue"; the show-details queue name is
modelled as that default. -/
def DETAILS_QUEUE : String := "details-queue"

/-- RetryService.dead_letter_queue_suffix (retry_service.py, __init__). -/
def dead_letter_queue_suffix : String := "-deadletter"

/-- RetryService.max_retry_attempts (retry_service.py, __init__). -/
def max_retry_attempts : Nat := 3

/-- RetryService.base_delay_seconds (retry_service.py, __init__). -/
def base_delay_seconds : Nat := 2

/-- RetryService.calculate_backoff_delay (retry_service.py, lines 82-91):
base_delay_seconds * 2 ** (attempt - 1).  The Python value is a float with an
integral value; it is modelled as a natural number of seconds. -/
def calculate_backoff_delay (attempt : Nat) : Nat :=
  base_delay_seconds * 2 ^ (attempt - 1)

/-- Observable effects of the with_retry wrapper (retry_service.py, lines
34-80): a call to monitoring_service.track_retry_attempt, or a time.sleep. -/
inductive REffect where
  | track (attempt : Nat) (maxAttempts : Nat) (error : String)
  | sleep (seconds : Nat)
  deriving Repr, DecidableEq

/-- Loop body of the wrapper produced by RetryService.with_retry
(retry_service.py, lines 44-78): for attempt in range(1, attempts + 1), run the
wrapped operation; on success return its value; on exception record a retry
attempt, and if attempts remain sleep the backoff delay and continue, otherwise
fall out of the loop and re-raise the last exception.  The wrapped operation is
an oracle from the attempt number to its outcome on that attempt. -/
def withRetryLoop {α : Type} (funct : Nat → Except String α) (attempts : Nat)
    (attempt : Nat) : List REffect × Except String α :=
  match funct attempt with
  | .ok a => ([], .ok a)
  | .error e =>
    if h : attempt < attempts then
      let rest := withRetryLoop funct attempts (attempt + 1)
      (REffect.track attempt attempts e ::
        REffect.sleep (calculate_backoff_delay attempt) :: rest.1, rest.2)
    else
      ([REffect.track attempt attempts e], .error e)
termination_by attempts - attempt

/-- Python expression max_attempts or self.max_retry_attempts (retry_service.py,
line 46): None and 0 are falsy, so both fall back to max_retry_attempts = 3. -/
def effective_attempts (max_attempts : Option Nat) : Nat :=
  match max_attempts with
  | none => ShowSvc.max_retry_attempts
  | some n => if n = 0 then ShowSvc.max_retry_attempts else n

/-- RetryService.with_retry (retry_service.py, lines 34-80): the wrapper starts
at attempt 1 and makes at most effective_attempts attempts. -/
def with_retry {α : Type} (max_attempts : Option Nat)
    (funct : Nat → Except String α) : List REffect × Except String α :=
  withRetryLoop funct (effective_attempts max_attempts) 1

/-- Result of one call to RetryService.handle_queue_message_with_retry
(retry_service.py, lines 93-150).  outcome .ok b models a normal return of b;
outcome .error models the re-raise.  sleptFor and trackedRetry record the
backoff sleep and the track_retry_attempt call made when dequeue_count > 1. -/
structure QResult where
  handlerInvoked : Bool
  deadLettered : Bool
  sleptFor : Option Nat
  trackedRetry : Bool
  outcome : Except String Bool
  deriving Repr

/-- RetryService.handle_queue_message_with_retry (retry_service.py, lines
93-150).  The handler is an oracle for what handler_func(message) does:
.ok () models a normal return, .error e models raising an exception.
If dequeue_count > max_retry_attempts the message is dead-lettered without
invoking the handler and False is returned; otherwise the handler runs after
the optional backoff, and on an exception the message is dead-lettered with
False returned when dequeue_count >= max_retry_attempts, else the exception is
re-raised. -/
def handle_queue_message_with_retry (dequeue_count : Nat)
    (handler : Except String Unit) : QResult :=
  if max_retry_attempts < dequeue_count then
    { handlerInvoked := false, deadLettered := true, sleptFor := none,
      trackedRetry := false, outcome := .ok false }
  else
    let slept := if 1 < dequeue_count then
      some (calculate_backoff_delay (dequeue_count - 1)) else none
    let tracked := decide (1 < dequeue_count)
    match handler with
    | .ok _ =>
      { handlerInvoked := true, deadLettered := false, sleptFor := slept,
        trackedRetry := tracked, outcome := .ok true }
    | .error e =>
      if max_retry_attempts ≤ dequeue_count then
        { handlerInvoked := true, deadLettered := true, sleptFor := slept,
          trackedRetry := tracked, outcome := .ok false }
      else
        { handlerInvoked := true, deadLettered := false, sleptFor := slept,
          trackedRetry := tracked, outcome := .error e }

/-- Helper for substring search on character lists: does the second list occur
at the head of the first. -/
def listStartsWith : List Char → List Char → Bool
  | _, [] => true
  | [], _ :: _ => false
  | a :: as, b :: bs => a = b && listStartsWith as bs

/-- Helper for substring search on character lists: does the second list occur
anywhere inside the first. -/
def listHasSub : List Char → List Char → Bool
  | [], sub => sub.isEmpty
  | a :: as, sub => listStartsWith (a :: as) sub || listHasSub as sub

/-- Python substring test sub in s, on strings. -/
def strHasSub (s sub : String) : Bool :=
  listHasSub s.data sub.data

/-- Python str.lower, modelled per character (the operation types used by this
service are ASCII). -/
def strLower (s : String) : String :=
  String.mk (s.data.map Char.toLower)

/-- RetryService.get_dead_letter_queue_name (retry_service.py, lines 188-202):
the operation type is lower-cased, then matched for the substring "index",
then "details", falling through to the general dead-letter queue. -/
def get_dead_letter_queue_name (operation_type : String) : String :=
  if strHasSub (strLower operation_type) ("index") then
    INDEX_QUEUE ++ dead_letter_queue_suffix
  else if strHasSub (strLower operation_type) ("details") then
    DETAILS_QUEUE ++ dead_letter_queue_suffix
  else
    ("general") ++ dead_letter_queue_suffix

/-- ImportStatus (monitoring_service.py, lines 14-19). -/
inductive ImportStatus where
  | pending
  | in_progress
  | completed
  | failed
  deriving Repr, DecidableEq

/-- State of the import-tracking table row for one import_id, as written by
MonitoringService (monitoring_service.py).  Timestamps are modelled as natural
numbers supplied by the caller as the current clock reading. -/
structure ImportEntity where
  status : ImportStatus
  startTime : Nat
  startPage : Int
  estimatedPages : Int
  completedPages : Nat
  failedPages : Nat
  lastActivityTime : Nat
  endTime : Option Nat := none
  lastProcessedPage : Option Int := none
  deriving Repr, DecidableEq

/-- Fault-injection oracle for one MonitoringService call: whether the storage
collaborator raises in its get_entities call or in its upsert_entity call. -/
inductive StorageFault where
  | ok
  | getFails
  | upsertFails
  deriving Repr, DecidableEq

/-- Storage collaborator get_entities for the import-tracking row of one
given import id: returns the row if present, or raises when the fault oracle says
so. -/
def storage_get_entities (tbl : Option ImportEntity) :
    StorageFault → Except String (List ImportEntity)
  | .getFails => .error ("storage get_entities raised")
  | _ => .ok tbl.toList

/-- Storage collaborator upsert_entity: returns the written entity, or raises
when the fault oracle says so. -/
def storage_upsert_entity {α : Type} (entity : α) :
    StorageFault → Except String α
  | .upsertFails => .error ("storage upsert_entity raised")
  | _ => .ok entity

/-- Python try/except Exception: log-and-fall-through wrapper; on an exception
in the body the method returns normally with the fallback value. -/
def pyCatchLog {α : Type} (body : Except String α) (fallback : α) :
    Except String α :=
  match body with
  | .ok a => .ok a
  | .error _ => .ok fallback

/-- Python expression v or d on an optional integer: None and 0 are falsy and
give the default. -/
def pyOrDefault (v : Option Int) (d : Int) : Int :=
  match v with
  | none => d
  | some n => if n = 0 then d else n

/-- MonitoringService.start_bulk_import_tracking (monitoring_service.py, lines
32-58): builds the fresh tracking entity and upserts it.  The method body has
no try/except, so a storage exception propagates (result .error). -/
def start_bulk_import_tracking (start_page : Int) (estimated_pages : Option Int)
    (now : Nat) (fault : StorageFault) : Except String (Option ImportEntity) :=
  let entity : ImportEntity :=
    { status := ImportStatus.in_progress, startTime := now,
      startPage := start_page,
      estimatedPages := pyOrDefault estimated_pages (-1),
      completedPages := 0, failedPages := 0, lastActivityTime := now }
  match storage_upsert_entity entity fault with
  | .error e => .error e
  | .ok e2 => .ok (some e2)

/-- Body of MonitoringService.update_import_progress (monitoring_service.py,
lines 68-92, inside the try): read the tracking row, bump CompletedPages or
FailedPages, stamp LastActivityTime and LastProcessedPage, write it back.
Missing row: log and return without writing. -/
def update_import_progress_body (tbl : Option ImportEntity)
    (completed_page : Int) (success : Bool) (now : Nat) (fault : StorageFault) :
    Except String (Option ImportEntity) :=
  match storage_get_entities tbl fault with
  | .error e => .error e
  | .ok entities =>
    match entities.head? with
    | none => .ok tbl
    | some entity =>
      let entity2 :=
        if success then { entity with completedPages := entity.completedPages + 1 }
        else { entity with failedPages := entity.failedPages + 1 }
      let entity3 :=
        { entity2 with lastActivityTime := now, lastProcessedPage := some completed_page }
      match storage_upsert_entity entity3 fault with
      | .error e => .error e
      | .ok e4 => .ok (some e4)

/-- MonitoringService.update_import_progress (monitoring_service.py, lines
60-95): the body runs inside try/except Exception, which logs and returns, so
no storage exception escapes and a failed call leaves the row unchanged. -/
def update_import_progress (tbl : Option ImportEntity) (completed_page : Int)
    (success : Bool) (now : Nat) (fault : StorageFault) :
    Except String (Option ImportEntity) :=
  pyCatchLog (update_import_progress_body tbl completed_page success now fault) tbl

/-- Body of MonitoringService.complete_bulk_import (monitoring_service.py,
lines 104-124, inside the try): read the tracking row, set Status to the given
final status, stamp EndTime and LastActivityTime, write it back.  Missing row:
log and return without writing.  There is no check of the current status. -/
def complete_bulk_import_body (tbl : Option ImportEntity)
    (final_status : ImportStatus) (now : Nat) (fault : StorageFault) :
    Except String (Option ImportEntity) :=
  match storage_get_entities tbl fault with
  | .error e => .error e
  | .ok entities =>
    match entities.head? with
    | none => .ok tbl
    | some entity =>
      let entity2 :=
        { entity with status := final_status, endTime := some now, lastActivityTime := now }
      match storage_upsert_entity entity2 fault with
      | .error e => .error e
      | .ok e3 => .ok (some e3)

/-- MonitoringService.complete_bulk_import (monitoring_service.py, lines
97-127): the body runs inside try/except Exception, which logs and returns. -/
def complete_bulk_import (tbl : Option ImportEntity)
    (final_status : ImportStatus) (now : Nat) (fault : StorageFault) :
    Except String (Option ImportEntity) :=
  pyCatchLog (complete_bulk_import_body tbl final_status now fault) tbl

/-- MonitoringService.get_import_status (monitoring_service.py, lines 129-147):
read-only lookup inside try/except; a missing row or a storage exception gives
an empty result. -/
def get_import_status (tbl : Option ImportEntity) (fault : StorageFault) :
    Except String (Option ImportEntity) :=
  pyCatchLog
    (match storage_get_entities tbl fault with
     | .error e => .error e
     | .ok entities => .ok entities.head?)
    none

/-- Retry-tracking table entity written by track_retry_attempt
(monitoring_service.py, lines 161-170). -/
structure RetryEntity where
  partitionKey : String
  rowKey : String
  identifier : String
  attemptNumber : Nat
  maxAttempts : Nat
  errorMessage : String
  attemptTime : Nat
  nextRetryTime : Nat
  deriving Repr, DecidableEq

/-- MonitoringService.track_retry_attempt (monitoring_service.py, lines
149-177): builds the RetryAttempt entity, with NextRetryTime a timedelta of
2 ** attempt minutes (modelled in seconds), and upserts it.  The method body
has no try/except, so a storage exception propagates (result .error). -/
def track_retry_attempt (operation_type identifier : String)
    (attempt max_attempts : Nat) (error : String) (now : Nat)
    (fault : StorageFault) : Except String RetryEntity :=
  let entity : RetryEntity :=
    { partitionKey := operation_type,
      rowKey := identifier ++ ("_") ++ toString attempt,
      identifier := identifier, attemptNumber := attempt,
      maxAttempts := max_attempts, errorMessage := error, attemptTime := now,
      nextRetryTime := now + 60 * 2 ^ attempt }
  storage_upsert_entity entity fault

/-- Data-health table entity written by update_data_health
(monitoring_service.py, lines 212-219). -/
structure HealthEntity where
  metricName : String
  value : Int
  threshold : Option Int
  lastUpdated : Nat
  isHealthy : Bool
  deriving Repr, DecidableEq

/-- MonitoringService.update_data_health (monitoring_service.py, lines
204-224): builds the health entity, with IsHealthy true when there is no
threshold or the value is at most the threshold, and upserts it.  The method
body has no try/except, so a storage exception propagates (result .error). -/
def update_data_health (metric_name : String) (value : Int)
    (threshold : Option Int) (now : Nat) (fault : StorageFault) :
    Except String HealthEntity :=
  let entity : HealthEntity :=
    { metricName := metric_name, value := value, threshold := threshold,
      lastUpdated := now,
      isHealthy := match threshold with
        | none => true
        | some t => decide (value ≤ t) }
  storage_upsert_entity entity fault

/-- One show record of a fetched page, as seen by handle_index_page
(show_service.py, lines 119-146): its id and updated fields, plus oracles for
whether the retried database upsert and the retried ID-table update ultimately
succeed for this record. -/
structure ShowRec where
  id : Option Int
  updated : Option Int
  upsertOk : Bool
  idTableOk : Bool
  deriving Repr, DecidableEq

/-- One element of the list returned by the catalog fetch: either a malformed
entry (falsy or not a dict, skipped by the loop) or a show record. -/
inductive ShowItem where
  | malformed
  | record (r : ShowRec)
  deriving Repr, DecidableEq

/-- Observable effects of ShowService.start_get_all_shows and of the
handle_index_page handler (show_service.py): calls onto the storage queue, the
progress tracker, the database repository and the ID table. -/
inductive Effect where
  | upsertShow (r : ShowRec)
  | updateIdTable (show_id last_updated : Int)
  | enqueueIndex (page : Int) (importId : Option String)
  | updateProgress (importId : String) (page : Int) (success : Bool)
  | completeImport (importId : String) (status : ImportStatus)
  | startTracking (importId : String) (start_page : Int) (estimated : Option Int)
  deriving Repr, DecidableEq

/-- Per-item body of the shows loop in handle_index_page (show_service.py,
lines 119-146): malformed items are skipped; otherwise the retried upsert is
attempted, and on its success, when both id and updated are truthy, the
retried ID-table update is attempted.  The second component is the
contribution to success_count: 1 exactly when no attempted step raised after
exhausting its retries (failures are caught by the per-item try/except and
only logged). -/
def processShow : ShowItem → List Effect × Nat
  | .malformed => ([], 0)
  | .record r =>
    if r.upsertOk then
      match r.id, r.updated with
      | some i, some u =>
        if i ≠ 0 ∧ u ≠ 0 then
          ([Effect.upsertShow r, Effect.updateIdTable i u],
            if r.idTableOk then 1 else 0)
        else ([Effect.upsertShow r], 1)
      | _, _ => ([Effect.upsertShow r], 1)
    else ([Effect.upsertShow r], 0)

/-- Effects of the whole shows loop of handle_index_page, in list order. -/
def pageItemEffects : List ShowItem → List Effect
  | [] => []
  | it :: rest => (processShow it).1 ++ pageItemEffects rest

/-- Parsed body of a page-index queue message: the page and importId fields,
each possibly absent. -/
structure IndexMessage where
  page : Option Int
  importId : Option String
  deriving Repr, DecidableEq

/-- Python conditional if import_id: around each progress-tracking call in
handle_index_page: the call happens only when import_id is present and truthy
(a non-empty string). -/
def ifImportId (importId : Option String) (mk : String → Effect) : List Effect :=
  match importId with
  | none => []
  | some iid => if iid = ("") then [] else [mk iid]

/-- The handle_index_page handler of ShowService.get_shows_index_page
(show_service.py, lines 91-175), given the parsed message and an oracle for
the catalog fetch (.error models the TVMaze call raising, .ok none models a
null return, .ok (some l) a returned list).  First component: the effects
performed, in order.  Second component: whether the handler re-raises.
A missing page number returns with no effect.  A fetch exception reports the
page as failed (when an import id is tracked) and re-raises.  A falsy result
(null or empty list) completes the bulk import (when tracked).  Otherwise each
item is processed, progress is reported as a success (when tracked), and when
the page has at least 200 items the next page is enqueued with the very same
field importId. -/
def handle_index_page (msg : IndexMessage)
    (fetch : Except String (Option (List ShowItem))) : List Effect × Bool :=
  match msg.page with
  | none => ([], false)
  | some page_number =>
    match fetch with
    | .error _ =>
      (ifImportId msg.importId (fun iid => Effect.updateProgress iid page_number false), true)
    | .ok shows =>
      match shows.getD [] with
      | [] =>
        (ifImportId msg.importId
          (fun iid => Effect.completeImport iid ImportStatus.completed), false)
      | a :: rest =>
        (pageItemEffects (a :: rest)
          ++ ifImportId msg.importId
              (fun iid => Effect.updateProgress iid page_number true)
          ++ (if 200 ≤ (a :: rest).length then
                [Effect.enqueueIndex (page_number + 1) msg.importId]
              else []),
          false)

/-- ShowService.start_get_all_shows (show_service.py, lines 44-80): builds
the import id from the current timestamp and a uuid fragment, registers the
bulk import with the progress tracker, and enqueues the starting page onto
the page-index queue.  Returns the import id and the effects performed. -/
def start_get_all_shows (page : Int) (estimated_pages : Option Int) (now : Nat)
    (uuid8 : String) : String × List Effect :=
  let importId := ("bulk_import_") ++ toString now ++ ("_") ++ uuid8
  (importId,
    [Effect.startTracking importId page estimated_pages,
     Effect.enqueueIndex page (some importId)])

/-- Effect classifier: calls into the progress tracker (update_import_progress
or complete_bulk_import). -/
def isTrackingEffect : Effect → Bool
  | .updateProgress _ _ _ => true
  | .completeImport _ _ => true
  | _ => false

/-- Effect classifier: messages enqueued onto the page-index queue. -/
def isEnqueueEffect : Effect → Bool
  | .enqueueIndex _ _ => true
  | _ => false

/-- Effect classifier: update_import_progress calls. -/
def isProgressEffect : Effect → Bool
  | .updateProgress _ _ _ => true
  | _ => false

/-- Effect classifier: complete_bulk_import calls. -/
def isCompleteEffect : Effect → Bool
  | .completeImport _ _ => true
  | _ => false

/-- Effect classifier: per-item effects of the shows loop (database upserts and
ID-table updates). -/
def isItemEffect : Effect → Bool
  | .upsertShow _ => true
  | .updateIdTable _ _ => true
  | _ => false

/-- Literal reading of claim C8: any operation type containing "index" maps to
the index dead-letter queue, any containing "details" maps to the details
dead-letter queue, and any other maps to "general-deadletter". -/
def claimC8Literal : Prop :=
  ∀ s : String,
    (strHasSub s ("index") = true →
      get_dead_letter_queue_name s = INDEX_QUEUE ++ dead_letter_queue_suffix)
    ∧ (strHasSub s ("details") = true →
      get_dead_letter_queue_name s = DETAILS_QUEUE ++ dead_letter_queue_suffix)
    ∧ (strHasSub s ("index") = false → strHasSub s ("details") = false →
      get_dead_letter_queue_name s = ("general") ++ dead_letter_queue_suffix)

/-- Concrete import-tracking row in the terminal status COMPLETED, used to
exercise complete_bulk_import on an already-finished run. -/
def terminalEntity : ImportEntity :=
  { status := ImportStatus.completed, startTime := 0, startPage := 0,
    estimatedPages := -1, completedPages := 3, failedPages := 0,
    lastActivityTime := 4, endTime := some 4, lastProcessedPage := some 2 }

/-- Helper: the per-item processing of the shows loop emits only item-level
effects, so filtering its effects by any predicate that rejects upserts and
ID-table updates gives nothing. -/
lemma processShow_filter_eq_nil (p : Effect → Bool)
    (hp1 : ∀ r, p (Effect.upsertShow r) = false)
    (hp2 : ∀ i u, p (Effect.updateIdTable i u) = false)
    (it : ShowItem) : ((processShow it).1).filter p = [] := by
  cases it with
  | malformed => rfl
  | record r =>
    rcases r with ⟨i, u, uok, tok⟩
    cases uok <;> cases i <;> cases u <;>
      simp [processShow, List.filter_cons, hp1, hp2] <;>
      split_ifs <;> simp [List.filter_cons, hp1, hp2]

/-- Helper: filtering the whole shows-loop effect list by any predicate that
rejects item-level effects gives nothing. -/
lemma pageItemEffects_filter_eq_nil (p : Effect → Bool)
    (hp1 : ∀ r, p (Effect.upsertShow r) = false)
    (hp2 : ∀ i u, p (Effect.updateIdTable i u) = false)
    (l : List ShowItem) : (pageItemEffects l).filter p = [] := by
  induction l with
  | nil => rfl
  | cons it rest ih =>
    simp [pageItemEffects, List.filter_append, ih,
      processShow_filter_eq_nil p hp1 hp2 it]

/-- Claim C3: for every queue message whose dequeue_count is strictly greater
than the maximum retry attempts (3), handle_queue_message_with_retry sends the
message to the dead-letter queue and returns false, and the handler function
is never invoked. -/
theorem claimC3_exceeded_dequeue_dead_letters (dc : Nat)
    (handler : Except String Unit) (h : max_retry_attempts < dc) :
    (handle_queue_message_with_retry dc handler).handlerInvoked = false
    ∧ (handle_queue_message_with_retry dc handler).deadLettered = true
    ∧ (handle_queue_message_with_retry dc handler).outcome = Except.ok false := by
  simp [handle_queue_message_with_retry, h]

/-- Witness for claim C3 at dequeue_count 4. -/
theorem claimC3_witness :
    (handle_queue_message_with_retry 4 (Except.ok ())).handlerInvoked = false
    ∧ (handle_queue_message_with_retry 4 (Except.ok ())).deadLettered = true
    ∧ (handle_queue_message_with_retry 4 (Except.ok ())).outcome = Except.ok false :=
  claimC3_exceeded_dequeue_dead_letters 4 (Except.ok ()) (by decide)

/-- Claim C2: when handle_queue_message_with_retry invokes the handler (that
is, dequeue_count is at most 3) and the handler raises, then for dequeue_count
at least 3 the message is dead-lettered and the call returns false without
re-raising, while for dequeue_count below 3 the exception is re-raised and no
dead-letter entry is written. -/
theorem claimC2_handler_raises (dc : Nat) (e : String)
    (hinv : dc ≤ max_retry_attempts) :
    (handle_queue_message_with_retry dc (Except.error e)).handlerInvoked = true
    ∧ (max_retry_attempts ≤ dc →
        (handle_queue_message_with_retry dc (Except.error e)).deadLettered = true
        ∧ (handle_queue_message_with_retry dc (Except.error e)).outcome
            = Except.ok false)
    ∧ (dc < max_retry_attempts →
        (handle_queue_message_with_retry dc (Except.error e)).deadLettered = false
        ∧ (handle_queue_message_with_retry dc (Except.error e)).outcome
            = Except.error e) := by
  have hn : ¬ (max_retry_attempts < dc) := by omega
  refine ⟨?_, ?_, ?_⟩
  · simp only [handle_queue_message_with_retry, if_neg hn]
    split_ifs <;> rfl
  · intro hge
    simp [handle_queue_message_with_retry, hn, hge]
  · intro hlt
    have hng : ¬ (max_retry_attempts ≤ dc) := by omega
    simp [handle_queue_message_with_retry, hn, hng]

/-- Witness for claim C2 at dequeue_count 3 (dead-letter, returns false) and
dequeue_count 2 (re-raises without dead-lettering). -/
theorem claimC2_witness :
    ((handle_queue_message_with_retry 3 (Except.error ("boom"))).deadLettered = true
      ∧ (handle_queue_message_with_retry 3 (Except.error ("boom"))).outcome
          = Except.ok false)
    ∧ ((handle_queue_message_with_retry 2 (Except.error ("boom"))).deadLettered = false
      ∧ (handle_queue_message_with_retry 2 (Except.error ("boom"))).outcome
          = Except.error ("boom")) :=
  ⟨(claimC2_handler_raises 3 ("boom") (by decide)).2.1 (by decide),
   (claimC2_handler_raises 2 ("boom") (by decide)).2.2 (by decide)⟩

/-- Claim C8, counterexample to the literal statement: the operation type
"INDEX" contains neither the literal substring "index" nor "details", so the
claim as stated maps it to "general-deadletter", but the code lower-cases
before matching and returns the index dead-letter queue; and "index_details"
contains "details", so the claim maps it to the details dead-letter queue, but
the code checks "index" first and returns the index dead-letter queue. -/
theorem claimC8_counterexample : ¬ claimC8Literal := by
  intro h
  have h1 := (h ("INDEX")).2.2 (by decide) (by decide)
  exact absurd h1 (by decide)

/-- Claim C8 as amended: get_dead_letter_queue_name matches case-insensitively
(on the lower-cased operation type) and checks "index" before "details": any s
whose lower-casing contains "index" maps to the index dead-letter queue; any s
whose lower-casing contains "details" but not "index" maps to the details
dead-letter queue; any other s maps to "general-deadletter". -/
theorem claimC8_amended (s : String) :
    (strHasSub (strLower s) ("index") = true →
      get_dead_letter_queue_name s = INDEX_QUEUE ++ dead_letter_queue_suffix)
    ∧ (strHasSub (strLower s) ("index") = false →
        strHasSub (strLower s) ("details") = true →
      get_dead_letter_queue_name s = DETAILS_QUEUE ++ dead_letter_queue_suffix)
    ∧ (strHasSub (strLower s) ("index") = false →
        strHasSub (strLower s) ("details") = false →
      get_dead_letter_queue_name s = ("general") ++ dead_letter_queue_suffix) := by
  refine ⟨?_, ?_, ?_⟩
  · intro h1
    simp [get_dead_letter_queue_name, h1]
  · intro h1 h2
    simp [get_dead_letter_queue_name, h1, h2]
  · intro h1 h2
    simp [get_dead_letter_queue_name, h1, h2]

/-- Helper: unfolding of withRetryLoop on a successful attempt. -/
lemma withRetryLoop_ok {α : Type} (f : Nat → Except String α)
    (attempts attempt : Nat) (a : α) (hf : f attempt = Except.ok a) :
    withRetryLoop f attempts attempt = ([], Except.ok a) := by
  unfold withRetryLoop
  rw [hf]

/-- Helper: unfolding of withRetryLoop on a failed attempt with attempts
remaining. -/
lemma withRetryLoop_error_lt {α : Type} (f : Nat → Except String α)
    (attempts attempt : Nat) (e : String) (hf : f attempt = Except.error e)
    (hlt : attempt < attempts) :
    withRetryLoop f attempts attempt =
      (REffect.track attempt attempts e ::
        REffect.sleep (calculate_backoff_delay attempt) ::
        (withRetryLoop f attempts (attempt + 1)).1,
       (withRetryLoop f attempts (attempt + 1)).2) := by
  conv_lhs => rw [withRetryLoop]
  rw [hf]
  simp [hlt]

/-- Helper: unfolding of withRetryLoop on the final failed attempt. -/
lemma withRetryLoop_error_last {α : Type} (f : Nat → Except String α)
    (attempts attempt : Nat) (e : String) (hf : f attempt = Except.error e)
    (hge : ¬ attempt < attempts) :
    withRetryLoop f attempts attempt =
      ([REffect.track attempt attempts e], Except.error e) := by
  conv_lhs => rw [withRetryLoop]
  rw [hf]
  simp [hge]

/-- Helper: when every attempt from the current one through the last fails,
withRetryLoop records each failure, sleeps the backoff after each non-final
failure, and ends with the last error. -/
lemma withRetryLoop_all_fail {α : Type} (f : Nat → Except String α)
    (err : Nat → String) (attempts : Nat) :
    ∀ (d attempt : Nat), attempt + d = attempts → 1 ≤ attempt →
      (∀ k, attempt ≤ k → k ≤ attempts → f k = Except.error (err k)) →
      withRetryLoop f attempts attempt =
        ((List.range' attempt d).foldr
          (fun k acc => REffect.track k attempts (err k) ::
            REffect.sleep (calculate_backoff_delay k) :: acc)
          [REffect.track attempts attempts (err attempts)],
         Except.error (err attempts)) := by
  intro d
  induction d with
  | zero =>
    intro attempt hsum h1 hf
    have ha : attempt = attempts := by omega
    subst ha
    rw [withRetryLoop_error_last f attempt attempt (err attempt)
      (hf attempt le_rfl le_rfl) (lt_irrefl attempt)]
    rfl
  | succ d ih =>
    intro attempt hsum h1 hf
    have hlt : attempt < attempts := by omega
    rw [withRetryLoop_error_lt f attempts attempt (err attempt)
      (hf attempt le_rfl (by omega)) hlt]
    have hrest := ih (attempt + 1) (by omega) (by omega)
      (fun k hk1 hk2 => hf k (by omega) hk2)
    rw [hrest, List.range'_succ]
    rfl

/-- Helper: when every attempt before j fails and attempt j succeeds with a,
withRetryLoop started at or before j returns a. -/
lemma withRetryLoop_reaches_ok {α : Type} (f : Nat → Except String α)
    (attempts : Nat) :
    ∀ (d attempt j : Nat) (a : α), attempt + d = j → j ≤ attempts →
      (∀ k, attempt ≤ k → k < j → ∃ e, f k = Except.error e) →
      f j = Except.ok a →
      (withRetryLoop f attempts attempt).2 = Except.ok a := by
  intro d
  induction d with
  | zero =>
    intro attempt j a hsum hj hpre hok
    have ha : attempt = j := by omega
    subst ha
    rw [withRetryLoop_ok f attempts attempt a hok]
  | succ d ih =>
    intro attempt j a hsum hj hpre hok
    obtain ⟨e, he⟩ := hpre attempt le_rfl (by omega)
    have hlt : attempt < attempts := by omega
    rw [withRetryLoop_error_lt f attempts attempt e he hlt]
    exact ih (attempt + 1) j a (by omega) hj
      (fun k hk1 hk2 => hpre k (by omega) hk2) hok

/-- Helper: for a positive requested attempt count, the Python fallback
expression max_attempts or self.max_retry_attempts is the requested count. -/
lemma effective_attempts_pos (n : Nat) (hn : 1 ≤ n) :
    effective_attempts (some n) = n := by
  simp only [effective_attempts]
  rw [if_neg (by omega)]

/-- Claim C6: for every operation f and max_attempts n at least 1, the wrapper
produced by with_retry returns the result of the first successful attempt; if
every one of the n attempts fails, it records a RetryAttempt for each of the n
failed attempts (including the first), sleeps calculate_backoff_delay k, which
is 2 * 2 ^ (k - 1) seconds, after each failed attempt k below n, and re-raises
the last exception. -/
theorem claimC6_with_retry_behavior {α : Type} (n : Nat) (hn : 1 ≤ n)
    (f : Nat → Except String α) (err : Nat → String) :
    (∀ k, 1 ≤ k → calculate_backoff_delay k = 2 * 2 ^ (k - 1))
    ∧ (∀ j a, 1 ≤ j → j ≤ n →
        (∀ k, 1 ≤ k → k < j → ∃ e, f k = Except.error e) →
        f j = Except.ok a →
        (with_retry (some n) f).2 = Except.ok a)
    ∧ ((∀ k, 1 ≤ k → k ≤ n → f k = Except.error (err k)) →
        with_retry (some n) f =
          ((List.range' 1 (n - 1)).foldr
            (fun k acc => REffect.track k n (err k) ::
              REffect.sleep (calculate_backoff_delay k) :: acc)
            [REffect.track n n (err n)],
           Except.error (err n))) := by
  refine ⟨fun k _ => rfl, ?_, ?_⟩
  · intro j a hj1 hjn hpre hok
    unfold with_retry
    rw [effective_attempts_pos n hn]
    exact withRetryLoop_reaches_ok f n (j - 1) 1 j a (by omega) hjn
      (fun k hk1 hk2 => hpre k hk1 hk2) hok
  · intro hf
    unfold with_retry
    rw [effective_attempts_pos n hn]
    exact withRetryLoop_all_fail f err n (n - 1) 1 (by omega) le_rfl
      (fun k hk1 hk2 => hf k hk1 hk2)

/-- Witness for claim C6 with n = 2: an operation failing once then returning
7 gives 7, and an operation failing on both attempts produces the two tracked
attempts, the single 2-second backoff sleep, and the last error. -/
theorem claimC6_witness :
    (with_retry (some 2)
      (fun k => if k = 1 then Except.error ("b1") else Except.ok 7)).2
        = Except.ok 7
    ∧ with_retry (some 2)
        (fun k => (Except.error (if k = 1 then ("b1") else ("b2")) :
          Except String Nat)) =
      ([REffect.track 1 2 ("b1"), REffect.sleep 2, REffect.track 2 2 ("b2")],
       Except.error ("b2")) := by
  constructor
  · exact (@claimC6_with_retry_behavior Nat 2 (by decide)
      (fun k => if k = 1 then Except.error ("b1") else Except.ok 7)
      (fun _ => (""))).2.1 2 7
      (by decide) (by decide)
      (fun k hk1 hk2 => ⟨("b1"), by
        have hk : k = 1 := by omega
        subst hk
        rfl⟩)
      rfl
  · have h := (@claimC6_with_retry_behavior Nat 2 (by decide)
      (fun k => Except.error (if k = 1 then ("b1") else ("b2")))
      (fun k => if k = 1 then ("b1") else ("b2"))).2.2 (fun k hk1 hk2 => rfl)
    rw [h]
    rfl

/-- Helper: the Python try/except wrapper never lets an exception escape. -/
lemma pyCatchLog_isOk {α : Type} (body : Except String α) (fb : α) :
    (pyCatchLog body fb).isOk = true := by
  cases body <;> rfl

/-- Claim C4, counterexample: three MonitoringService methods have no
try/except around their storage call, so a storage exception escapes from
start_bulk_import_tracking, track_retry_attempt and update_data_health,
contradicting the claim that every Progress Tracker method catches storage
exceptions and returns normally. -/
theorem claimC4_counterexample :
    (start_bulk_import_tracking 0 none 0 StorageFault.upsertFails).isOk = false
    ∧ (track_retry_attempt ("index_page") ("page_1") 1 3 ("timeout") 0
        StorageFault.upsertFails).isOk = false
    ∧ (update_data_health ("updates_failed") 1 none 0
        StorageFault.upsertFails).isOk = false :=
  ⟨rfl, rfl, rfl⟩

/-- Claim C4 as amended: the read-modify-write and lookup methods
update_import_progress, complete_bulk_import and get_import_status catch
storage exceptions and return normally, but start_bulk_import_tracking,
track_retry_attempt and update_data_health have no exception handler, so a
storage exception propagates out of them to the caller. -/
theorem claimC4_amended (tbl : Option ImportEntity) (page : Int)
    (success : Bool) (now : Nat) (st : ImportStatus) (fault : StorageFault)
    (op idf err metric : String) (attempt ma : Nat) (value : Int)
    (thr : Option Int) (est : Option Int) (sp : Int) :
    (update_import_progress tbl page success now fault).isOk = true
    ∧ (complete_bulk_import tbl st now fault).isOk = true
    ∧ (get_import_status tbl fault).isOk = true
    ∧ (start_bulk_import_tracking sp est now StorageFault.upsertFails).isOk
        = false
    ∧ (track_retry_attempt op idf attempt ma err now
        StorageFault.upsertFails).isOk = false
    ∧ (update_data_health metric value thr now StorageFault.upsertFails).isOk
        = false :=
  ⟨pyCatchLog_isOk _ _, pyCatchLog_isOk _ _, pyCatchLog_isOk _ _, rfl, rfl, rfl⟩

/-- Claim C5, counterexample: on a run whose stored status is the terminal
COMPLETED, a later complete_bulk_import with final status FAILED overwrites
the stored status with FAILED, so a terminal status is not preserved. -/
theorem claimC5_counterexample :
    complete_bulk_import (some terminalEntity) ImportStatus.failed 9
        StorageFault.ok
      = Except.ok (some { terminalEntity with
          status := ImportStatus.failed, endTime := some 9, lastActivityTime := 9 })
    ∧ terminalEntity.status = ImportStatus.completed
    ∧ ImportStatus.failed ≠ ImportStatus.completed :=
  ⟨rfl, rfl, by decide⟩

/-- Claim C5 as amended: update_import_progress never changes the stored
status (it only moves the page counters and timestamps), but
complete_bulk_import has no terminal-state guard: whenever the record exists
and the storage write succeeds it overwrites the stored status with its
argument, including moving a run out of COMPLETED or FAILED. -/
theorem claimC5_amended (e : ImportEntity) (page : Int) (success : Bool)
    (now : Nat) (fault : StorageFault) (st : ImportStatus) :
    (∃ e2, update_import_progress (some e) page success now fault
        = Except.ok (some e2) ∧ e2.status = e.status)
    ∧ complete_bulk_import (some e) st now StorageFault.ok
        = Except.ok (some { e with
            status := st, endTime := some now, lastActivityTime := now }) := by
  constructor
  · cases fault <;> cases success <;> exact ⟨_, rfl, rfl⟩
  · rfl

/-- Witness for claim C8 on one operation type per branch. -/
theorem claimC8_witness :
    get_dead_letter_queue_name ("index_page")
        = INDEX_QUEUE ++ dead_letter_queue_suffix
    ∧ get_dead_letter_queue_name ("show_details")
        = DETAILS_QUEUE ++ dead_letter_queue_suffix
    ∧ get_dead_letter_queue_name ("database_write")
        = ("general") ++ dead_letter_queue_suffix :=
  ⟨(claimC8_amended ("index_page")).1 (by decide),
   (claimC8_amended ("show_details")).2.1 (by decide) (by decide),
   (claimC8_amended ("database_write")).2.2 (by decide) (by decide)⟩

/-- Claim C1: for a page-index message carrying page p and a (non-empty)
id of an import, if the catalog fetch returns at least 200 items the handler
enqueues exactly one page-index message for page p + 1 carrying that same
id (and does not complete the import); if the fetch returns no items
(null or empty) the handler calls complete_bulk_import with COMPLETED exactly
once and enqueues no further message. -/
theorem claimC1_page_continuation (p : Int) (iid : String) (hiid : iid ≠ (""))
    (fetch : Except String (Option (List ShowItem))) :
    (∀ l, fetch = Except.ok (some l) → 200 ≤ l.length →
      (handle_index_page ⟨some p, some iid⟩ fetch).1.filter isEnqueueEffect
          = [Effect.enqueueIndex (p + 1) (some iid)]
        ∧ (handle_index_page ⟨some p, some iid⟩ fetch).1.filter isCompleteEffect
          = [])
    ∧ ((fetch = Except.ok none ∨ fetch = Except.ok (some [])) →
      (handle_index_page ⟨some p, some iid⟩ fetch).1.filter isCompleteEffect
          = [Effect.completeImport iid ImportStatus.completed]
        ∧ (handle_index_page ⟨some p, some iid⟩ fetch).1.filter isEnqueueEffect
          = []) := by
  constructor
  · intro l hf hlen
    subst hf
    cases l with
    | nil => simp at hlen
    | cons a rest =>
      have hlen2 : 199 ≤ rest.length := by simpa using hlen
      constructor
      · simp [handle_index_page, ifImportId, hiid, List.filter_append,
          pageItemEffects_filter_eq_nil isEnqueueEffect
            (fun _ => rfl) (fun _ _ => rfl) (a :: rest),
          hlen2, List.filter_cons, isEnqueueEffect]
      · simp [handle_index_page, ifImportId, hiid, List.filter_append,
          pageItemEffects_filter_eq_nil isCompleteEffect
            (fun _ => rfl) (fun _ _ => rfl) (a :: rest),
          hlen2, List.filter_cons, isCompleteEffect]
  · intro hf
    rcases hf with hf | hf <;> subst hf <;>
      exact ⟨by simp [handle_index_page, ifImportId, hiid, List.filter_cons,
          isCompleteEffect],
        by simp [handle_index_page, ifImportId, hiid, List.filter_cons,
          isEnqueueEffect]⟩

/-- Witness for claim C1 at page 3 with a 200-item page (one enqueue for page
4) and with a null fetch result (one COMPLETED completion). -/
theorem claimC1_witness :
    (handle_index_page ⟨some 3, some ("imp")⟩
        (Except.ok (some (List.replicate 200 ShowItem.malformed)))).1.filter
          isEnqueueEffect = [Effect.enqueueIndex (3 + 1) (some ("imp"))]
    ∧ (handle_index_page ⟨some 3, some ("imp")⟩ (Except.ok none)).1.filter
          isCompleteEffect = [Effect.completeImport ("imp")
            ImportStatus.completed] :=
  ⟨((claimC1_page_continuation 3 ("imp") (by decide) _).1
      (List.replicate 200 ShowItem.malformed) rfl
      (by rw [List.length_replicate])).1,
   ((claimC1_page_continuation 3 ("imp") (by decide) _).2 (Or.inl rfl)).1⟩

/-- Claim C9: for a page-index message with page p and a (non-empty) import
id whose fetch returns a non-empty item list, update_import_progress is called
exactly once, with success true, whatever the per-item persistence outcomes
are (including every item failing); update_import_progress with success false
happens only on the fetch-exception path, where the handler then re-raises. -/
theorem claimC9_progress_once (p : Int) (iid : String) (hiid : iid ≠ ("")) :
    (∀ l, l ≠ [] →
      (handle_index_page ⟨some p, some iid⟩ (Except.ok (some l))).1.filter
        isProgressEffect = [Effect.updateProgress iid p true])
    ∧ (∀ e, (handle_index_page ⟨some p, some iid⟩ (Except.error e)).1.filter
          isProgressEffect = [Effect.updateProgress iid p false]
        ∧ (handle_index_page ⟨some p, some iid⟩ (Except.error e)).2 = true) := by
  constructor
  · intro l hl
    cases l with
    | nil => exact absurd rfl hl
    | cons a rest =>
      simp only [handle_index_page, Option.getD, List.filter_append]
      rw [pageItemEffects_filter_eq_nil isProgressEffect
        (fun _ => rfl) (fun _ _ => rfl) (a :: rest)]
      split_ifs <;>
        simp [ifImportId, hiid, List.filter_cons, isProgressEffect]
  · intro e
    exact ⟨by simp [handle_index_page, ifImportId, hiid, List.filter_cons,
        isProgressEffect],
      by simp [handle_index_page]⟩

/-- Witness for claim C9: a one-item page whose only item fails both its
retried upsert and its retried ID-table update still reports the page as a
success exactly once. -/
theorem claimC9_witness :
    (handle_index_page ⟨some 0, some ("imp")⟩
      (Except.ok (some [ShowItem.record ⟨some 1, some 2, false, false⟩]))).1.filter
        isProgressEffect = [Effect.updateProgress ("imp") 0 true] :=
  (claimC9_progress_once 0 ("imp") (by decide)).1
    [ShowItem.record ⟨some 1, some 2, false, false⟩] (by decide)

/-- Claim C10: for a page-index message with a page number and no import id,
no progress-tracking operation happens on any path (success, empty page or
fetch failure), yet the page is still fully processed: every item is handled
and, on a full page, the next-page message is enqueued carrying a null import
id. -/
theorem claimC10_no_import_id (p : Int) :
    (∀ fetch, (handle_index_page ⟨some p, none⟩ fetch).1.filter
        isTrackingEffect = [])
    ∧ (∀ l, l ≠ [] →
        (handle_index_page ⟨some p, none⟩ (Except.ok (some l))).1
          = pageItemEffects l
            ++ (if 200 ≤ l.length then [Effect.enqueueIndex (p + 1) none]
                else [])) := by
  constructor
  · intro fetch
    match fetch with
    | .error e => simp [handle_index_page, ifImportId]
    | .ok none => simp [handle_index_page, ifImportId]
    | .ok (some []) => simp [handle_index_page, ifImportId]
    | .ok (some (a :: rest)) =>
      simp only [handle_index_page, Option.getD, List.filter_append]
      rw [pageItemEffects_filter_eq_nil isTrackingEffect
        (fun _ => rfl) (fun _ _ => rfl) (a :: rest)]
      split_ifs <;> simp [ifImportId, List.filter_cons, isTrackingEffect]
  · intro l hl
    cases l with
    | nil => exact absurd rfl hl
    | cons a rest => simp [handle_index_page, ifImportId]

/-- Witness for claim C10: a fetch failure performs no tracking call, and a
one-item page is processed with no tracking call and no enqueue (the page is
not full). -/
theorem claimC10_witness :
    (handle_index_page ⟨some 0, none⟩ (Except.error ("x"))).1.filter
        isTrackingEffect = []
    ∧ (handle_index_page ⟨some 0, none⟩
          (Except.ok (some [ShowItem.malformed]))).1
        = pageItemEffects [ShowItem.malformed]
          ++ (if 200 ≤ ([ShowItem.malformed] : List ShowItem).length then
              [Effect.enqueueIndex (0 + 1) none] else []) :=
  ⟨(claimC10_no_import_id 0).1 (Except.error ("x")),
   (claimC10_no_import_id 0).2 [ShowItem.malformed] (by decide)⟩

/-- Claim C7: start_get_all_shows returns a non-empty import id, performs
exactly the registration of the run with the Progress Tracker followed by a
single page-index enqueue of the starting page carrying that import id, and
the registered ImportRun has status IN_PROGRESS with zero completed and zero
failed pages. -/
theorem claimC7_start_get_all_shows (page : Int) (est : Option Int) (now : Nat)
    (uuid8 : String) :
    (start_get_all_shows page est now uuid8).1 ≠ ("")
    ∧ (start_get_all_shows page est now uuid8).2
        = [Effect.startTracking (start_get_all_shows page est now uuid8).1
            page est,
           Effect.enqueueIndex page
            (some (start_get_all_shows page est now uuid8).1)]
    ∧ (∃ e2, start_bulk_import_tracking page est now StorageFault.ok
          = Except.ok (some e2)
        ∧ e2.status = ImportStatus.in_progress
        ∧ e2.completedPages = 0 ∧ e2.failedPages = 0
        ∧ e2.startPage = page) := by
  refine ⟨?_, rfl, ⟨_, rfl, rfl, rfl, rfl, rfl⟩⟩
  intro h
  have h2 := congrArg String.length h
  simp only [start_get_all_shows, String.length_append] at h2
  have h3 : String.length ("bulk_import_") = 12 := rfl
  have h4 : String.length ("_") = 1 := rfl
  have h5 : String.length ("") = 0 := rfl
  omega

/-- Witness: claim C7 has only universally quantified value arguments, but it
is exercised here at page 1 with a fixed clock and uuid fragment. -/
theorem claimC7_witness :
    (start_get_all_shows 1 none 20250101 ("abcd1234")).1 ≠ ("")
    ∧ (∃ e2, start_bulk_import_tracking 1 none 20250101 StorageFault.ok
          = Except.ok (some e2)
        ∧ e2.status = ImportStatus.in_progress
        ∧ e2.completedPages = 0 ∧ e2.failedPages = 0) := by
  have h := claimC7_start_get_all_shows 1 none 20250101 ("abcd1234")
  obtain ⟨e2, he, hs, hc, hf, _⟩ := h.2.2
  exact ⟨h.1, ⟨e2, he, hs, hc, hf⟩⟩

end ShowSvc
